import Mathlib

/-!
Verification of the user-management request handlers and validation schemas
of the `backendexercise` repository.

The two source files are embedded shallowly:
* `src/api/components/users/users-controller.js`: each Express handler becomes
  a pure Lean function.  The external service module `users-service` is an
  abstract oracle (`UsersService`, a structure of response functions), and every
  handler returns both its outcome (success response or raised error) and the
  ordered list of service calls it performed, so that statements about
  "no service call is made" are expressible.
* `src/api/components/users/users-validator.js`: the per-operation joi schemas
  become boolean validators over a raw request body.

Request-body fields in JavaScript may be absent (`undefined`), and the
controller compares them with strict (in)equality `!==`; this is modelled with
`Option String` and decidable equality (`none = none` holds, matching
`undefined === undefined` in JavaScript).
-/

namespace BackendExercise

/-- The error taxonomy of `core/errors` used by the controller
(`errorTypes.*`). -/
inductive ErrorType where
  | VALIDATION_ERROR
  | INVALID_PASSWORD
  | EMAIL_ALREADY_TAKEN
  | UNPROCESSABLE_ENTITY
  | INVALID_CREDENTIALS
  deriving DecidableEq, Repr

/-- A user record returned by the service layer; its contents are never
inspected by the controller, so it is kept opaque as a string payload. -/
abbrev UserRecord := String

/-- The external `users-service` module, as an oracle of responses.  Each field
models the return value of the corresponding asynchronous service function. -/
structure UsersService where
  getUsers : List UserRecord
  getUser : String → Option UserRecord
  checkUserEmail : Option String → Bool
  createUser : Option String → Option String → Option String → Bool
  updateUser : String → Option String → Option String → Bool
  checkLoginCredential : String → Option String → Bool
  patchUser : String → Option String → Option String → Bool
  deleteUser : String → Bool

/-- One call into the external `users-service`, with the arguments passed. -/
inductive ServiceCall where
  | getUsers
  | getUser (id : String)
  | checkUserEmail (email : Option String)
  | createUser (name email password : Option String)
  | updateUser (id : String) (name email : Option String)
  | checkLoginCredential (id : String) (oldpassword : Option String)
  | patchUser (id : String) (oldpassword newpassword : Option String)
  | deleteUser (id : String)
  deriving DecidableEq, Repr

/-- Whether a service call mutates state (create/update/patch/delete), as
opposed to the read-only lookups (list, get, email-existence, credential
check). -/
def ServiceCall.isMutation : ServiceCall → Bool
  | .createUser _ _ _ => true
  | .updateUser _ _ _ => true
  | .patchUser _ _ _ => true
  | .deleteUser _ => true
  | _ => false

/-- A JSON response body produced by a handler. -/
inductive Body where
  | fields (kvs : List (String × Option String))
  | user (u : UserRecord)
  | users (us : List UserRecord)
  deriving DecidableEq, Repr

/-- The observable outcome of a handler: a successful
`response.status(s).json(b)` or an error thrown via `errorResponder` and
forwarded to `next`. -/
inductive Outcome where
  | ok (status : Nat) (body : Body)
  | err (kind : ErrorType) (message : String)
  deriving DecidableEq, Repr

/-- Request body of the create-user operation (`request.body.*`); every field
may be absent. -/
structure CreateReq where
  name : Option String
  email : Option String
  password : Option String
  confirmpassword : Option String
  deriving DecidableEq, Repr

/-- Request of the update-user operation: path parameter `id` plus body
fields.  The controller also reads `password`/`confirmpassword` from the body
even though the update schema does not declare them. -/
structure UpdateReq where
  id : String
  name : Option String
  email : Option String
  password : Option String
  confirmpassword : Option String
  deriving DecidableEq, Repr

/-- Request of the password-patch operation: path parameter `id` plus the
three password fields of the body. -/
structure PatchReq where
  id : String
  oldpassword : Option String
  newpassword : Option String
  confirmnewpassword : Option String
  deriving DecidableEq, Repr

namespace UsersController

/-- `getUsers` of `users-controller.js`: list all users. -/
def getUsers (svc : UsersService) : Outcome × List ServiceCall :=
  (Outcome.ok 200 (Body.users svc.getUsers), [ServiceCall.getUsers])

/-- `getUser` of `users-controller.js`: fetch one user; when the service
returns no record (`!user`), throw `UNPROCESSABLE_ENTITY` "Unknown user". -/
def getUser (svc : UsersService) (id : String) : Outcome × List ServiceCall :=
  match svc.getUser id with
  | none => (Outcome.err ErrorType.UNPROCESSABLE_ENTITY "Unknown user",
      [ServiceCall.getUser id])
  | some u => (Outcome.ok 200 (Body.user u), [ServiceCall.getUser id])

/-- `createUser` of `users-controller.js`: reject on password mismatch, then
on an already-taken email, then delegate creation; on success return
`{name, email}`. -/
def createUser (svc : UsersService) (req : CreateReq) :
    Outcome × List ServiceCall :=
  if req.confirmpassword ≠ req.password then
    (Outcome.err ErrorType.INVALID_PASSWORD "Passwords did not match", [])
  else
    let emailExists := svc.checkUserEmail req.email
    if emailExists then
      (Outcome.err ErrorType.EMAIL_ALREADY_TAKEN "Email already taken",
        [ServiceCall.checkUserEmail req.email])
    else
      let success := svc.createUser req.name req.email req.password
      let calls := [ServiceCall.checkUserEmail req.email,
        ServiceCall.createUser req.name req.email req.password]
      if !success then
        (Outcome.err ErrorType.UNPROCESSABLE_ENTITY "Failed to create user",
          calls)
      else
        (Outcome.ok 200 (Body.fields [("name", req.name), ("email", req.email)]),
          calls)

/-- `updateUser` of `users-controller.js`: same password-mismatch and
email-taken guards as create, then delegate the update; on success return
`{id}`. -/
def updateUser (svc : UsersService) (req : UpdateReq) :
    Outcome × List ServiceCall :=
  if req.confirmpassword ≠ req.password then
    (Outcome.err ErrorType.INVALID_PASSWORD "Passwords did not match", [])
  else
    let emailExists := svc.checkUserEmail req.email
    if emailExists then
      (Outcome.err ErrorType.EMAIL_ALREADY_TAKEN "Email already taken",
        [ServiceCall.checkUserEmail req.email])
    else
      let success := svc.updateUser req.id req.name req.email
      let calls := [ServiceCall.checkUserEmail req.email,
        ServiceCall.updateUser req.id req.name req.email]
      if !success then
        (Outcome.err ErrorType.UNPROCESSABLE_ENTITY "Failed to update user",
          calls)
      else
        (Outcome.ok 200 (Body.fields [("id", some req.id)]), calls)

/-- `patchUser` of `users-controller.js`: credential check first (a `true`
result throws "Wrong password!"), then new/confirm mismatch, then
new-equals-old, then delegate the patch, passing `confirmnewpassword` as the
new password; on success return `{id}`. -/
def patchUser (svc : UsersService) (req : PatchReq) :
    Outcome × List ServiceCall :=
  let check := svc.checkLoginCredential req.id req.oldpassword
  if check then
    (Outcome.err ErrorType.INVALID_PASSWORD "Wrong password!",
      [ServiceCall.checkLoginCredential req.id req.oldpassword])
  else if req.newpassword ≠ req.confirmnewpassword then
    (Outcome.err ErrorType.INVALID_PASSWORD
      "Your new password doesnt match the confirm new password!",
      [ServiceCall.checkLoginCredential req.id req.oldpassword])
  else if req.oldpassword = req.newpassword then
    (Outcome.err ErrorType.UNPROCESSABLE_ENTITY
      "Your new password cant be the same as the old one!",
      [ServiceCall.checkLoginCredential req.id req.oldpassword])
  else
    let checking := svc.patchUser req.id req.oldpassword req.confirmnewpassword
    let calls := [ServiceCall.checkLoginCredential req.id req.oldpassword,
      ServiceCall.patchUser req.id req.oldpassword req.confirmnewpassword]
    if !checking then
      (Outcome.err ErrorType.INVALID_CREDENTIALS "Fail to patch user", calls)
    else
      (Outcome.ok 200 (Body.fields [("id", some req.id)]), calls)

/-- A variant of `patchUser` that passes `newpassword` (rather than
`confirmnewpassword`) as the new-password argument of the service call; used
to state the observational-equivalence claim about that argument choice. -/
def patchUserNewArg (svc : UsersService) (req : PatchReq) :
    Outcome × List ServiceCall :=
  let check := svc.checkLoginCredential req.id req.oldpassword
  if check then
    (Outcome.err ErrorType.INVALID_PASSWORD "Wrong password!",
      [ServiceCall.checkLoginCredential req.id req.oldpassword])
  else if req.newpassword ≠ req.confirmnewpassword then
    (Outcome.err ErrorType.INVALID_PASSWORD
      "Your new password doesnt match the confirm new password!",
      [ServiceCall.checkLoginCredential req.id req.oldpassword])
  else if req.oldpassword = req.newpassword then
    (Outcome.err ErrorType.UNPROCESSABLE_ENTITY
      "Your new password cant be the same as the old one!",
      [ServiceCall.checkLoginCredential req.id req.oldpassword])
  else
    let checking := svc.patchUser req.id req.oldpassword req.newpassword
    let calls := [ServiceCall.checkLoginCredential req.id req.oldpassword,
      ServiceCall.patchUser req.id req.oldpassword req.newpassword]
    if !checking then
      (Outcome.err ErrorType.INVALID_CREDENTIALS "Fail to patch user", calls)
    else
      (Outcome.ok 200 (Body.fields [("id", some req.id)]), calls)

/-- `deleteUser` of `users-controller.js`: delegate deletion; on failure throw
`UNPROCESSABLE_ENTITY`; on success return `{id}`. -/
def deleteUser (svc : UsersService) (id : String) :
    Outcome × List ServiceCall :=
  let success := svc.deleteUser id
  if !success then
    (Outcome.err ErrorType.UNPROCESSABLE_ENTITY "Failed to delete user",
      [ServiceCall.deleteUser id])
  else
    (Outcome.ok 200 (Body.fields [("id", some id)]), [ServiceCall.deleteUser id])

end UsersController

/-- The full set of body fields a request may carry, for the validator
schemas (each schema reads only the fields it declares). -/
structure RawBody where
  name : Option String
  email : Option String
  password : Option String
  confirmpassword : Option String
  oldpassword : Option String
  newpassword : Option String
  confirmnewpassword : Option String
  deriving DecidableEq, Repr

namespace UsersValidator

/-- Split a character list at the first `@`, returning the parts before and
after it, or `none` when no `@` occurs. -/
def breakAtSign : List Char → Option (List Char × List Char)
  | [] => none
  | c :: cs =>
    if c = '@' then some ([], cs)
    else
      match breakAtSign cs with
      | none => none
      | some (lp, dp) => some (c :: lp, dp)

/-- Modelled from the spec: the joi library implementing
`joi.string().email()` is external to this repository.  The spec requires a
"valid email format" and in particular that an email without an `@` is
rejected; we model the format as: the string splits at a unique `@` into a
nonempty local part and a nonempty domain that contains a dot. -/
def emailFormatOk (s : String) : Bool :=
  match breakAtSign s.data with
  | some (lp, dp) =>
      !lp.isEmpty && !dp.isEmpty && !dp.contains '@' && dp.contains '.'
  | none => false

/-- `joi.string().min(1).max(100).required()` applied to an optional field:
absent fields fail `required()`, present fields must be 1..100 characters. -/
def joiName (v : Option String) : Bool :=
  match v with
  | none => false
  | some s => decide (1 ≤ s.length) && decide (s.length ≤ 100)

/-- `joi.string().email().required()` applied to an optional field. -/
def joiEmail (v : Option String) : Bool :=
  match v with
  | none => false
  | some s => emailFormatOk s

/-- `joi.string().min(6).max(32).required()` applied to an optional field. -/
def joiPassword (v : Option String) : Bool :=
  match v with
  | none => false
  | some s => decide (6 ≤ s.length) && decide (s.length ≤ 32)

/-- The `createUser` schema of `users-validator.js`: name, email, password and
confirmpassword are all required. -/
def createUser (b : RawBody) : Bool :=
  joiName b.name && joiEmail b.email && joiPassword b.password &&
    joiPassword b.confirmpassword

/-- The `updateUser` schema of `users-validator.js`: only name and email are
declared; no password field is read. -/
def updateUser (b : RawBody) : Bool :=
  joiName b.name && joiEmail b.email

/-- The `patchUser` schema of `users-validator.js`: the three password fields
are required; no name or email is read. -/
def patchUser (b : RawBody) : Bool :=
  joiPassword b.oldpassword && joiPassword b.newpassword &&
    joiPassword b.confirmnewpassword

end UsersValidator

/-! Concrete service oracles used to instantiate the theorems on concrete
requests. -/

/-- A service in which every lookup is benign and every mutation succeeds. -/
def svcDemo : UsersService where
  getUsers := []
  getUser := fun _ => some "record"
  checkUserEmail := fun _ => false
  createUser := fun _ _ _ => true
  updateUser := fun _ _ _ => true
  checkLoginCredential := fun _ _ => false
  patchUser := fun _ _ _ => true
  deleteUser := fun _ => true

/-- A service that reports every email as already registered. -/
def svcEmailTaken : UsersService where
  getUsers := []
  getUser := fun _ => some "record"
  checkUserEmail := fun _ => true
  createUser := fun _ _ _ => true
  updateUser := fun _ _ _ => true
  checkLoginCredential := fun _ _ => false
  patchUser := fun _ _ _ => true
  deleteUser := fun _ => true

/-- A service in which every lookup finds nothing and every mutation fails. -/
def svcAllFail : UsersService where
  getUsers := []
  getUser := fun _ => none
  checkUserEmail := fun _ => false
  createUser := fun _ _ _ => false
  updateUser := fun _ _ _ => false
  checkLoginCredential := fun _ _ => false
  patchUser := fun _ _ _ => false
  deleteUser := fun _ => false

/-- A service whose credential check reports a mismatch (returns `true`, which
the controller treats as "wrong password"). -/
def svcWrongPassword : UsersService where
  getUsers := []
  getUser := fun _ => some "record"
  checkUserEmail := fun _ => false
  createUser := fun _ _ _ => true
  updateUser := fun _ _ _ => true
  checkLoginCredential := fun _ _ => true
  patchUser := fun _ _ _ => true
  deleteUser := fun _ => true

/-- A 101-character name, longer than the schema's 100-character bound. -/
def longName : String := String.mk (List.replicate 101 'a')

/-- C1: for every createUser and every updateUser request in which the
confirmpassword field is not equal to the password field, the handler fails
with `INVALID_PASSWORD` "Passwords did not match" and its service-call trace
is empty: neither the email-existence lookup nor any mutation is made. -/
theorem create_update_password_mismatch_rejected
    (svc : UsersService) (creq : CreateReq) (ureq : UpdateReq)
    (hc : creq.confirmpassword ≠ creq.password)
    (hu : ureq.confirmpassword ≠ ureq.password) :
    UsersController.createUser svc creq =
      (Outcome.err ErrorType.INVALID_PASSWORD "Passwords did not match", []) ∧
    UsersController.updateUser svc ureq =
      (Outcome.err ErrorType.INVALID_PASSWORD "Passwords did not match", []) := by
  constructor
  · simp [UsersController.createUser, hc]
  · simp [UsersController.updateUser, hu]

/-- Witness for C1 at a concrete mismatching request. -/
theorem create_update_password_mismatch_rejected_witness :
    UsersController.createUser svcDemo
      ⟨some "Alice", some "a@x.com", some "secret1", some "secret2"⟩ =
      (Outcome.err ErrorType.INVALID_PASSWORD "Passwords did not match", []) ∧
    UsersController.updateUser svcDemo
      ⟨"u1", some "Alice", some "a@x.com", some "secret1", some "secret2"⟩ =
      (Outcome.err ErrorType.INVALID_PASSWORD "Passwords did not match", []) :=
  create_update_password_mismatch_rejected svcDemo _ _ (by decide) (by decide)

/-- C3: in patchUser the credential verification is the first (and, on
failure, the only) service interaction: whenever
`checkLoginCredential(id, oldpassword)` reports a mismatch (returns `true`),
the handler fails with `INVALID_PASSWORD` "Wrong password!" and the trace is
exactly that single lookup — no other check outcome is reported and no other
service call runs. -/
theorem patch_credential_check_first (svc : UsersService) (req : PatchReq)
    (h : svc.checkLoginCredential req.id req.oldpassword = true) :
    UsersController.patchUser svc req =
      (Outcome.err ErrorType.INVALID_PASSWORD "Wrong password!",
        [ServiceCall.checkLoginCredential req.id req.oldpassword]) := by
  simp [UsersController.patchUser, h]

/-- Witness for C3 at a concrete request against a mismatch-reporting
service. -/
theorem patch_credential_check_first_witness :
    UsersController.patchUser svcWrongPassword
      ⟨"u1", some "oldpw01", some "newpw01", some "newpw01"⟩ =
      (Outcome.err ErrorType.INVALID_PASSWORD "Wrong password!",
        [ServiceCall.checkLoginCredential "u1" (some "oldpw01")]) :=
  patch_credential_check_first svcWrongPassword _ rfl

/-- C2: in patchUser the new/confirm-mismatch check precedes the
equal-to-old check.  When the credential guard passes: if all three password
fields are equal the result is `UNPROCESSABLE_ENTITY` (new equals old), not
`INVALID_PASSWORD`; and whenever newpassword differs from confirmnewpassword
the mismatch error is raised even if oldpassword equals newpassword, which
pins the evaluation order. -/
theorem patch_confirm_check_before_equal_old_check
    (svc : UsersService) (req : PatchReq)
    (hcred : svc.checkLoginCredential req.id req.oldpassword = false) :
    (req.oldpassword = req.newpassword →
      req.newpassword = req.confirmnewpassword →
      UsersController.patchUser svc req =
        (Outcome.err ErrorType.UNPROCESSABLE_ENTITY
          "Your new password cant be the same as the old one!",
          [ServiceCall.checkLoginCredential req.id req.oldpassword])) ∧
    (req.newpassword ≠ req.confirmnewpassword →
      UsersController.patchUser svc req =
        (Outcome.err ErrorType.INVALID_PASSWORD
          "Your new password doesnt match the confirm new password!",
          [ServiceCall.checkLoginCredential req.id req.oldpassword])) := by
  constructor
  · intro h1 h2
    have hcred2 := hcred
    rw [h1, h2] at hcred2
    simp [UsersController.patchUser, hcred2, h1, h2]
  · intro h
    simp [UsersController.patchUser, hcred, h]

/-- Witness for C2: all three password fields equal to "abcdef" yield
`UNPROCESSABLE_ENTITY`, and a confirm mismatch with old = new yields the
mismatch `INVALID_PASSWORD` error. -/
theorem patch_confirm_check_before_equal_old_check_witness :
    UsersController.patchUser svcDemo
      ⟨"u1", some "abcdef", some "abcdef", some "abcdef"⟩ =
      (Outcome.err ErrorType.UNPROCESSABLE_ENTITY
        "Your new password cant be the same as the old one!",
        [ServiceCall.checkLoginCredential "u1" (some "abcdef")]) ∧
    UsersController.patchUser svcDemo
      ⟨"u1", some "abcdef", some "abcdef", some "ghijkl"⟩ =
      (Outcome.err ErrorType.INVALID_PASSWORD
        "Your new password doesnt match the confirm new password!",
        [ServiceCall.checkLoginCredential "u1" (some "abcdef")]) :=
  ⟨(patch_confirm_check_before_equal_old_check svcDemo
      ⟨"u1", some "abcdef", some "abcdef", some "abcdef"⟩ rfl).1 rfl rfl,
   (patch_confirm_check_before_equal_old_check svcDemo
      ⟨"u1", some "abcdef", some "abcdef", some "ghijkl"⟩ rfl).2 (by decide)⟩

/-- C4: for every createUser and updateUser request whose password fields
match, if the email-existence lookup reports the email as registered, the
handler fails with `EMAIL_ALREADY_TAKEN` regardless of the other fields, and
the trace holds only the read-only lookup: no mutation call is made. -/
theorem create_update_email_taken_rejected
    (svc : UsersService) (creq : CreateReq) (ureq : UpdateReq)
    (hc : creq.confirmpassword = creq.password)
    (hu : ureq.confirmpassword = ureq.password)
    (hec : svc.checkUserEmail creq.email = true)
    (heu : svc.checkUserEmail ureq.email = true) :
    UsersController.createUser svc creq =
      (Outcome.err ErrorType.EMAIL_ALREADY_TAKEN "Email already taken",
        [ServiceCall.checkUserEmail creq.email]) ∧
    UsersController.updateUser svc ureq =
      (Outcome.err ErrorType.EMAIL_ALREADY_TAKEN "Email already taken",
        [ServiceCall.checkUserEmail ureq.email]) ∧
    (∀ c ∈ (UsersController.createUser svc creq).2, c.isMutation = false) ∧
    (∀ c ∈ (UsersController.updateUser svc ureq).2, c.isMutation = false) := by
  have h1 : UsersController.createUser svc creq =
      (Outcome.err ErrorType.EMAIL_ALREADY_TAKEN "Email already taken",
        [ServiceCall.checkUserEmail creq.email]) := by
    simp [UsersController.createUser, hc, hec]
  have h2 : UsersController.updateUser svc ureq =
      (Outcome.err ErrorType.EMAIL_ALREADY_TAKEN "Email already taken",
        [ServiceCall.checkUserEmail ureq.email]) := by
    simp [UsersController.updateUser, hu, heu]
  refine ⟨h1, h2, ?_, ?_⟩
  · rw [h1]
    simp [ServiceCall.isMutation]
  · rw [h2]
    simp [ServiceCall.isMutation]

/-- Witness for C4 at concrete matching-password requests against a service
that reports every email as taken (the name field is even invalid, showing
other-field validity does not matter). -/
theorem create_update_email_taken_rejected_witness :
    UsersController.createUser svcEmailTaken
      ⟨none, some "a@x.com", some "secret1", some "secret1"⟩ =
      (Outcome.err ErrorType.EMAIL_ALREADY_TAKEN "Email already taken",
        [ServiceCall.checkUserEmail (some "a@x.com")]) ∧
    UsersController.updateUser svcEmailTaken
      ⟨"u1", none, some "a@x.com", none, none⟩ =
      (Outcome.err ErrorType.EMAIL_ALREADY_TAKEN "Email already taken",
        [ServiceCall.checkUserEmail (some "a@x.com")]) :=
  ⟨(create_update_email_taken_rejected svcEmailTaken
      ⟨none, some "a@x.com", some "secret1", some "secret1"⟩
      ⟨"u1", none, some "a@x.com", none, none⟩ rfl rfl rfl rfl).1,
   (create_update_email_taken_rejected svcEmailTaken
      ⟨none, some "a@x.com", some "secret1", some "secret1"⟩
      ⟨"u1", none, some "a@x.com", none, none⟩ rfl rfl rfl rfl).2.1⟩

/-- C5: service-layer failures map to error kinds as follows: getUser with an
absent record fails `UNPROCESSABLE_ENTITY` "Unknown user" (the error is a
returned outcome, never an unhandled one); failed create, update and delete
service calls fail `UNPROCESSABLE_ENTITY`; a failed password-patch service
call fails `INVALID_CREDENTIALS`. -/
theorem service_failure_error_kinds :
    (∀ (svc : UsersService) (id : String), svc.getUser id = none →
      UsersController.getUser svc id =
        (Outcome.err ErrorType.UNPROCESSABLE_ENTITY "Unknown user",
          [ServiceCall.getUser id])) ∧
    (∀ (svc : UsersService) (req : CreateReq),
      req.confirmpassword = req.password →
      svc.checkUserEmail req.email = false →
      svc.createUser req.name req.email req.password = false →
      (UsersController.createUser svc req).1 =
        Outcome.err ErrorType.UNPROCESSABLE_ENTITY "Failed to create user") ∧
    (∀ (svc : UsersService) (req : UpdateReq),
      req.confirmpassword = req.password →
      svc.checkUserEmail req.email = false →
      svc.updateUser req.id req.name req.email = false →
      (UsersController.updateUser svc req).1 =
        Outcome.err ErrorType.UNPROCESSABLE_ENTITY "Failed to update user") ∧
    (∀ (svc : UsersService) (id : String), svc.deleteUser id = false →
      (UsersController.deleteUser svc id).1 =
        Outcome.err ErrorType.UNPROCESSABLE_ENTITY "Failed to delete user") ∧
    (∀ (svc : UsersService) (req : PatchReq),
      svc.checkLoginCredential req.id req.oldpassword = false →
      req.newpassword = req.confirmnewpassword →
      req.oldpassword ≠ req.newpassword →
      svc.patchUser req.id req.oldpassword req.confirmnewpassword = false →
      (UsersController.patchUser svc req).1 =
        Outcome.err ErrorType.INVALID_CREDENTIALS "Fail to patch user") := by
  refine ⟨?_, ?_, ?_, ?_, ?_⟩
  · intro svc id h
    simp [UsersController.getUser, h]
  · intro svc req h1 h2 h3
    simp [UsersController.createUser, h1, h2, h3]
  · intro svc req h1 h2 h3
    simp [UsersController.updateUser, h1, h2, h3]
  · intro svc id h
    simp [UsersController.deleteUser, h]
  · intro svc req h1 h2 h3 h4
    have h1' := h1
    have h3' := h3
    rw [h2] at h3'
    simp [UsersController.patchUser, h1, h2, h3', h4]

/-- Witness for C5: each failure mapping evaluated against a service in which
every lookup finds nothing and every mutation fails. -/
theorem service_failure_error_kinds_witness :
    UsersController.getUser svcAllFail "u1" =
      (Outcome.err ErrorType.UNPROCESSABLE_ENTITY "Unknown user",
        [ServiceCall.getUser "u1"]) ∧
    (UsersController.createUser svcAllFail
      ⟨some "Alice", some "a@x.com", some "secret1", some "secret1"⟩).1 =
      Outcome.err ErrorType.UNPROCESSABLE_ENTITY "Failed to create user" ∧
    (UsersController.updateUser svcAllFail
      ⟨"u1", some "Alice", some "a@x.com", none, none⟩).1 =
      Outcome.err ErrorType.UNPROCESSABLE_ENTITY "Failed to update user" ∧
    (UsersController.deleteUser svcAllFail "u1").1 =
      Outcome.err ErrorType.UNPROCESSABLE_ENTITY "Failed to delete user" ∧
    (UsersController.patchUser svcAllFail
      ⟨"u1", some "oldpw01", some "newpw01", some "newpw01"⟩).1 =
      Outcome.err ErrorType.INVALID_CREDENTIALS "Fail to patch user" :=
  ⟨service_failure_error_kinds.1 svcAllFail "u1" rfl,
   service_failure_error_kinds.2.1 svcAllFail
     ⟨some "Alice", some "a@x.com", some "secret1", some "secret1"⟩ rfl rfl rfl,
   service_failure_error_kinds.2.2.1 svcAllFail
     ⟨"u1", some "Alice", some "a@x.com", none, none⟩ rfl rfl rfl,
   service_failure_error_kinds.2.2.2.1 svcAllFail "u1" rfl,
   service_failure_error_kinds.2.2.2.2 svcAllFail
     ⟨"u1", some "oldpw01", some "newpw01", some "newpw01"⟩ rfl rfl
     (by decide) rfl⟩

/-- C8: a createUser request that passes both guards and whose service call
succeeds yields HTTP status 200 with body exactly `{name, email}`; no field
of the body is named `password` or `confirmpassword`, so the password value
is never echoed back. -/
theorem create_success_response (svc : UsersService) (req : CreateReq)
    (h1 : req.confirmpassword = req.password)
    (h2 : svc.checkUserEmail req.email = false)
    (h3 : svc.createUser req.name req.email req.password = true) :
    UsersController.createUser svc req =
      (Outcome.ok 200 (Body.fields [("name", req.name), ("email", req.email)]),
        [ServiceCall.checkUserEmail req.email,
         ServiceCall.createUser req.name req.email req.password]) ∧
    (∀ kv ∈ [("name", req.name), ("email", req.email)],
      kv.1 ≠ "password" ∧ kv.1 ≠ "confirmpassword") := by
  constructor
  · simp [UsersController.createUser, h1, h2, h3]
  · simp

/-- Witness for C8: the spec scenario
`createUser("Alice", "a@x.com", "secret1", "secret1")` with
`emailExists = false` and a succeeding service call returns status 200 with
body `{name: "Alice", email: "a@x.com"}`. -/
theorem create_success_response_witness :
    UsersController.createUser svcDemo
      ⟨some "Alice", some "a@x.com", some "secret1", some "secret1"⟩ =
      (Outcome.ok 200 (Body.fields
        [("name", some "Alice"), ("email", some "a@x.com")]),
        [ServiceCall.checkUserEmail (some "a@x.com"),
         ServiceCall.createUser (some "Alice") (some "a@x.com")
           (some "secret1")]) :=
  (create_success_response svcDemo
    ⟨some "Alice", some "a@x.com", some "secret1", some "secret1"⟩
    rfl rfl rfl).1

/-- C10: patchUser passes `confirmnewpassword` as the new-password argument
of the service call, and since that call is only reached when `newpassword`
equals `confirmnewpassword`, the handler is observationally equal (same
outcome and same trace) to the variant that passes `newpassword`. -/
theorem patch_confirmnewpassword_argument_equivalent
    (svc : UsersService) (req : PatchReq) :
    UsersController.patchUser svc req =
      UsersController.patchUserNewArg svc req ∧
    (svc.checkLoginCredential req.id req.oldpassword = false →
      req.newpassword = req.confirmnewpassword →
      req.oldpassword ≠ req.newpassword →
      ServiceCall.patchUser req.id req.oldpassword req.confirmnewpassword ∈
        (UsersController.patchUser svc req).2) := by
  constructor
  · by_cases hcred : svc.checkLoginCredential req.id req.oldpassword
    · simp [UsersController.patchUser, UsersController.patchUserNewArg, hcred]
    · by_cases h : req.newpassword = req.confirmnewpassword
      · simp [UsersController.patchUser, UsersController.patchUserNewArg, h]
      · simp [UsersController.patchUser, UsersController.patchUserNewArg,
          hcred, h]
  · intro hcred h2 h3
    have h3' := h3
    rw [h2] at h3'
    simp [UsersController.patchUser, hcred, h2, h3']
    split <;> simp

/-- Witness for C10 at a concrete passing request: the service call carrying
`confirmnewpassword` appears in the trace. -/
theorem patch_confirmnewpassword_argument_equivalent_witness :
    ServiceCall.patchUser "u1" (some "oldpw01") (some "newpw01") ∈
      (UsersController.patchUser svcDemo
        ⟨"u1", some "oldpw01", some "newpw01", some "newpw01"⟩).2 :=
  (patch_confirmnewpassword_argument_equivalent svcDemo
    ⟨"u1", some "oldpw01", some "newpw01", some "newpw01"⟩).2
    rfl rfl (by decide)

/-- C9: updateUser reads `password`/`confirmpassword` although the update
schema declares neither.  When both are absent the match guard passes (the
handler can then only succeed or fail with a non-password error), so a
request conforming to the declared update schema is never rejected with
`INVALID_PASSWORD`; supplying exactly one of the two fields is rejected with
`INVALID_PASSWORD` before any service call.  The update schema itself is
insensitive to the password fields. -/
theorem update_reads_undeclared_password_fields (svc : UsersService)
    (id : String) (name email : Option String) :
    (∀ m : String,
      (UsersController.updateUser svc ⟨id, name, email, none, none⟩).1 ≠
        Outcome.err ErrorType.INVALID_PASSWORD m) ∧
    (∀ p : String,
      UsersController.updateUser svc ⟨id, name, email, some p, none⟩ =
        (Outcome.err ErrorType.INVALID_PASSWORD "Passwords did not match",
          []) ∧
      UsersController.updateUser svc ⟨id, name, email, none, some p⟩ =
        (Outcome.err ErrorType.INVALID_PASSWORD "Passwords did not match",
          [])) ∧
    (∀ (b : RawBody) (p cp : Option String),
      UsersValidator.updateUser
        ⟨b.name, b.email, p, cp, b.oldpassword, b.newpassword,
          b.confirmnewpassword⟩ = UsersValidator.updateUser b) := by
  refine ⟨?_, ?_, ?_⟩
  · intro m
    by_cases he : svc.checkUserEmail email = true
    · simp [UsersController.updateUser, he]
    · by_cases hs : svc.updateUser id name email = true
      · simp [UsersController.updateUser, he, hs]
      · simp [UsersController.updateUser, he, hs]
  · intro p
    constructor
    · simp [UsersController.updateUser]
    · simp [UsersController.updateUser]
  · intro b p cp
    rfl

/-- Witness for C9: with both password fields absent the outcome is not the
password-mismatch error, while supplying only `password` is rejected with it
and an empty trace. -/
theorem update_reads_undeclared_password_fields_witness :
    (UsersController.updateUser svcDemo
      ⟨"u1", some "Alice", some "a@x.com", none, none⟩).1 ≠
      Outcome.err ErrorType.INVALID_PASSWORD "Passwords did not match" ∧
    UsersController.updateUser svcDemo
      ⟨"u1", some "Alice", some "a@x.com", some "secret1", none⟩ =
      (Outcome.err ErrorType.INVALID_PASSWORD "Passwords did not match",
        []) :=
  ⟨(update_reads_undeclared_password_fields svcDemo "u1" (some "Alice")
      (some "a@x.com")).1 "Passwords did not match",
   ((update_reads_undeclared_password_fields svcDemo "u1" (some "Alice")
      (some "a@x.com")).2.1 "secret1").1⟩

/-- C6: mutating service calls happen only after all of the handler's guards
have passed; when a guard fails, the raised error is the first violated rule
(the outcome type carries exactly one error) and the trace holds no mutating
call.  Stated for create, update and patch (membership of a mutation in the
trace forces all guards to have passed, and each guard failure pins the
outcome and a mutation-free trace); the read-only handlers never mutate. -/
theorem mutations_only_after_guards :
    (∀ (svc : UsersService) (req : CreateReq) (c : ServiceCall),
      c ∈ (UsersController.createUser svc req).2 → c.isMutation = true →
      req.confirmpassword = req.password ∧
        svc.checkUserEmail req.email = false) ∧
    (∀ (svc : UsersService) (req : CreateReq),
      req.confirmpassword ≠ req.password →
      (UsersController.createUser svc req).1 =
        Outcome.err ErrorType.INVALID_PASSWORD "Passwords did not match" ∧
      ∀ c ∈ (UsersController.createUser svc req).2, c.isMutation = false) ∧
    (∀ (svc : UsersService) (req : CreateReq),
      req.confirmpassword = req.password →
      svc.checkUserEmail req.email = true →
      (UsersController.createUser svc req).1 =
        Outcome.err ErrorType.EMAIL_ALREADY_TAKEN "Email already taken" ∧
      ∀ c ∈ (UsersController.createUser svc req).2, c.isMutation = false) ∧
    (∀ (svc : UsersService) (req : UpdateReq) (c : ServiceCall),
      c ∈ (UsersController.updateUser svc req).2 → c.isMutation = true →
      req.confirmpassword = req.password ∧
        svc.checkUserEmail req.email = false) ∧
    (∀ (svc : UsersService) (req : UpdateReq),
      req.confirmpassword ≠ req.password →
      (UsersController.updateUser svc req).1 =
        Outcome.err ErrorType.INVALID_PASSWORD "Passwords did not match" ∧
      ∀ c ∈ (UsersController.updateUser svc req).2, c.isMutation = false) ∧
    (∀ (svc : UsersService) (req : UpdateReq),
      req.confirmpassword = req.password →
      svc.checkUserEmail req.email = true →
      (UsersController.updateUser svc req).1 =
        Outcome.err ErrorType.EMAIL_ALREADY_TAKEN "Email already taken" ∧
      ∀ c ∈ (UsersController.updateUser svc req).2, c.isMutation = false) ∧
    (∀ (svc : UsersService) (req : PatchReq) (c : ServiceCall),
      c ∈ (UsersController.patchUser svc req).2 → c.isMutation = true →
      svc.checkLoginCredential req.id req.oldpassword = false ∧
        req.newpassword = req.confirmnewpassword ∧
        req.oldpassword ≠ req.newpassword) ∧
    (∀ (svc : UsersService) (req : PatchReq),
      svc.checkLoginCredential req.id req.oldpassword = true →
      (UsersController.patchUser svc req).1 =
        Outcome.err ErrorType.INVALID_PASSWORD "Wrong password!" ∧
      ∀ c ∈ (UsersController.patchUser svc req).2, c.isMutation = false) ∧
    (∀ (svc : UsersService) (req : PatchReq),
      svc.checkLoginCredential req.id req.oldpassword = false →
      req.newpassword ≠ req.confirmnewpassword →
      (UsersController.patchUser svc req).1 =
        Outcome.err ErrorType.INVALID_PASSWORD
          "Your new password doesnt match the confirm new password!" ∧
      ∀ c ∈ (UsersController.patchUser svc req).2, c.isMutation = false) ∧
    (∀ (svc : UsersService) (req : PatchReq),
      svc.checkLoginCredential req.id req.oldpassword = false →
      req.newpassword = req.confirmnewpassword →
      req.oldpassword = req.newpassword →
      (UsersController.patchUser svc req).1 =
        Outcome.err ErrorType.UNPROCESSABLE_ENTITY
          "Your new password cant be the same as the old one!" ∧
      ∀ c ∈ (UsersController.patchUser svc req).2, c.isMutation = false) ∧
    (∀ (svc : UsersService) (id : String),
      (∀ c ∈ (UsersController.getUsers svc).2, c.isMutation = false) ∧
      (∀ c ∈ (UsersController.getUser svc id).2, c.isMutation = false)) := by
  refine ⟨?_, ?_, ?_, ?_, ?_, ?_, ?_, ?_, ?_, ?_, ?_⟩
  · intro svc req c hc hm
    by_cases h1 : req.confirmpassword = req.password
    · refine ⟨h1, ?_⟩
      by_cases h2 : svc.checkUserEmail req.email = true
      · exfalso
        simp [UsersController.createUser, h1, h2] at hc
        rw [hc] at hm
        simp [ServiceCall.isMutation] at hm
      · simpa using h2
    · exfalso
      simp [UsersController.createUser, h1] at hc
  · intro svc req h
    have he : UsersController.createUser svc req =
        (Outcome.err ErrorType.INVALID_PASSWORD "Passwords did not match",
          []) := by
      simp [UsersController.createUser, h]
    rw [he]
    simp
  · intro svc req h1 h2
    have he : UsersController.createUser svc req =
        (Outcome.err ErrorType.EMAIL_ALREADY_TAKEN "Email already taken",
          [ServiceCall.checkUserEmail req.email]) := by
      simp [UsersController.createUser, h1, h2]
    rw [he]
    simp [ServiceCall.isMutation]
  · intro svc req c hc hm
    by_cases h1 : req.confirmpassword = req.password
    · refine ⟨h1, ?_⟩
      by_cases h2 : svc.checkUserEmail req.email = true
      · exfalso
        simp [UsersController.updateUser, h1, h2] at hc
        rw [hc] at hm
        simp [ServiceCall.isMutation] at hm
      · simpa using h2
    · exfalso
      simp [UsersController.updateUser, h1] at hc
  · intro svc req h
    have he : UsersController.updateUser svc req =
        (Outcome.err ErrorType.INVALID_PASSWORD "Passwords did not match",
          []) := by
      simp [UsersController.updateUser, h]
    rw [he]
    simp
  · intro svc req h1 h2
    have he : UsersController.updateUser svc req =
        (Outcome.err ErrorType.EMAIL_ALREADY_TAKEN "Email already taken",
          [ServiceCall.checkUserEmail req.email]) := by
      simp [UsersController.updateUser, h1, h2]
    rw [he]
    simp [ServiceCall.isMutation]
  · intro svc req c hc hm
    by_cases hcr : svc.checkLoginCredential req.id req.oldpassword = true
    · exfalso
      simp [UsersController.patchUser, hcr] at hc
      rw [hc] at hm
      simp [ServiceCall.isMutation] at hm
    · by_cases h2 : req.newpassword = req.confirmnewpassword
      · by_cases h3 : req.oldpassword = req.newpassword
        · exfalso
          have h3' : req.oldpassword = req.confirmnewpassword := h3.trans h2
          have hcrF : svc.checkLoginCredential req.id req.confirmnewpassword
              = false := by
            rw [← h3']
            simpa using hcr
          simp [UsersController.patchUser, h2, h3', hcrF] at hc
          rw [hc] at hm
          simp [ServiceCall.isMutation] at hm
        · exact ⟨by simpa using hcr, h2, h3⟩
      · exfalso
        simp [UsersController.patchUser, hcr, h2] at hc
        rw [hc] at hm
        simp [ServiceCall.isMutation] at hm
  · intro svc req h
    have he : UsersController.patchUser svc req =
        (Outcome.err ErrorType.INVALID_PASSWORD "Wrong password!",
          [ServiceCall.checkLoginCredential req.id req.oldpassword]) := by
      simp [UsersController.patchUser, h]
    rw [he]
    simp [ServiceCall.isMutation]
  · intro svc req h1 h2
    have he : UsersController.patchUser svc req =
        (Outcome.err ErrorType.INVALID_PASSWORD
          "Your new password doesnt match the confirm new password!",
          [ServiceCall.checkLoginCredential req.id req.oldpassword]) := by
      simp [UsersController.patchUser, h1, h2]
    rw [he]
    simp [ServiceCall.isMutation]
  · intro svc req h1 h2 h3
    have h3' : req.oldpassword = req.confirmnewpassword := h3.trans h2
    have h1' : svc.checkLoginCredential req.id req.confirmnewpassword
        = false := by
      rw [← h3']
      exact h1
    have he : UsersController.patchUser svc req =
        (Outcome.err ErrorType.UNPROCESSABLE_ENTITY
          "Your new password cant be the same as the old one!",
          [ServiceCall.checkLoginCredential req.id req.oldpassword]) := by
      simp [UsersController.patchUser, h2, h3', h1']
    rw [he]
    simp [ServiceCall.isMutation]
  · intro svc id
    constructor
    · simp [UsersController.getUsers, ServiceCall.isMutation]
    · cases h : svc.getUser id <;>
        simp [UsersController.getUser, h, ServiceCall.isMutation]

/-- Witness for C6: at concrete failing guards the handlers raise the first
violated rule with a mutation-free trace. -/
theorem mutations_only_after_guards_witness :
    ((UsersController.createUser svcDemo
      ⟨some "Alice", some "a@x.com", some "secret1", some "secret2"⟩).1 =
      Outcome.err ErrorType.INVALID_PASSWORD "Passwords did not match" ∧
     ∀ c ∈ (UsersController.createUser svcDemo
      ⟨some "Alice", some "a@x.com", some "secret1", some "secret2"⟩).2,
      c.isMutation = false) ∧
    ((UsersController.patchUser svcWrongPassword
      ⟨"u1", some "oldpw01", some "newpw01", some "newpw01"⟩).1 =
      Outcome.err ErrorType.INVALID_PASSWORD "Wrong password!" ∧
     ∀ c ∈ (UsersController.patchUser svcWrongPassword
      ⟨"u1", some "oldpw01", some "newpw01", some "newpw01"⟩).2,
      c.isMutation = false) :=
  ⟨mutations_only_after_guards.2.1 svcDemo
    ⟨some "Alice", some "a@x.com", some "secret1", some "secret2"⟩
    (by decide),
   mutations_only_after_guards.2.2.2.2.2.2.2.1 svcWrongPassword
    ⟨"u1", some "oldpw01", some "newpw01", some "newpw01"⟩ rfl⟩

/-- A character list with no `@` has no split point. -/
theorem breakAtSign_eq_none_of_not_mem {l : List Char} (h : '@' ∉ l) :
    UsersValidator.breakAtSign l = none := by
  induction l with
  | nil => rfl
  | cons c cs ih =>
    simp only [List.mem_cons, not_or] at h
    have hc : ¬(c = '@') := fun hh => h.1 hh.symm
    simp [UsersValidator.breakAtSign, hc, ih h.2]

/-- C7: the validation schemas enforce, per operation: `name` is a required
string of 1 to 100 characters, `email` a required string in email format
(in particular a string without `@` is rejected), and every password field a
required string of 6 to 32 characters; the create schema requires all four of
its fields, the update schema only name and email (it is insensitive to all
password fields), and the patch schema only its three password fields — all
independent of the handlers' semantic checks. -/
theorem validator_schema_rules (b : RawBody) :
    (∀ s : String, 100 < s.length →
      UsersValidator.joiName (some s) = false) ∧
    (∀ s : String, 1 ≤ s.length → s.length ≤ 100 →
      UsersValidator.joiName (some s) = true) ∧
    UsersValidator.joiName none = false ∧
    (∀ s : String, '@' ∉ s.data →
      UsersValidator.joiEmail (some s) = false) ∧
    UsersValidator.joiEmail none = false ∧
    (∀ s : String, s.length < 6 →
      UsersValidator.joiPassword (some s) = false) ∧
    (∀ s : String, 32 < s.length →
      UsersValidator.joiPassword (some s) = false) ∧
    (∀ s : String, 6 ≤ s.length → s.length ≤ 32 →
      UsersValidator.joiPassword (some s) = true) ∧
    UsersValidator.joiPassword none = false ∧
    (UsersValidator.joiName b.name = false →
      UsersValidator.createUser b = false ∧
      UsersValidator.updateUser b = false) ∧
    (UsersValidator.joiEmail b.email = false →
      UsersValidator.createUser b = false ∧
      UsersValidator.updateUser b = false) ∧
    (UsersValidator.joiPassword b.password = false →
      UsersValidator.createUser b = false) ∧
    (UsersValidator.joiPassword b.confirmpassword = false →
      UsersValidator.createUser b = false) ∧
    (UsersValidator.joiPassword b.oldpassword = false →
      UsersValidator.patchUser b = false) ∧
    (UsersValidator.joiPassword b.newpassword = false →
      UsersValidator.patchUser b = false) ∧
    (UsersValidator.joiPassword b.confirmnewpassword = false →
      UsersValidator.patchUser b = false) ∧
    (UsersValidator.joiName b.name = true →
      UsersValidator.joiEmail b.email = true →
      UsersValidator.joiPassword b.password = true →
      UsersValidator.joiPassword b.confirmpassword = true →
      UsersValidator.createUser b = true) ∧
    (UsersValidator.joiName b.name = true →
      UsersValidator.joiEmail b.email = true →
      UsersValidator.updateUser b = true) ∧
    (UsersValidator.joiPassword b.oldpassword = true →
      UsersValidator.joiPassword b.newpassword = true →
      UsersValidator.joiPassword b.confirmnewpassword = true →
      UsersValidator.patchUser b = true) ∧
    (∀ p cp op np cnp : Option String,
      UsersValidator.updateUser ⟨b.name, b.email, p, cp, op, np, cnp⟩ =
        UsersValidator.updateUser b) ∧
    (∀ n e p cp : Option String,
      UsersValidator.patchUser ⟨n, e, p, cp, b.oldpassword, b.newpassword,
        b.confirmnewpassword⟩ = UsersValidator.patchUser b) ∧
    (∀ op np cnp : Option String,
      UsersValidator.createUser ⟨b.name, b.email, b.password,
        b.confirmpassword, op, np, cnp⟩ = UsersValidator.createUser b) := by
  refine ⟨?_, ?_, rfl, ?_, rfl, ?_, ?_, ?_, rfl, ?_, ?_, ?_, ?_, ?_, ?_, ?_,
    ?_, ?_, ?_, ?_, ?_, ?_⟩
  · intro s h
    simp [UsersValidator.joiName]
    omega
  · intro s h1 h2
    simp [UsersValidator.joiName, h1, h2]
  · intro s h
    simp [UsersValidator.joiEmail, UsersValidator.emailFormatOk,
      breakAtSign_eq_none_of_not_mem h]
  · intro s h
    simp [UsersValidator.joiPassword]
    omega
  · intro s h
    simp [UsersValidator.joiPassword]
    omega
  · intro s h1 h2
    simp [UsersValidator.joiPassword, h1, h2]
  · intro h
    constructor
    · simp [UsersValidator.createUser, h]
    · simp [UsersValidator.updateUser, h]
  · intro h
    constructor
    · simp [UsersValidator.createUser, h]
    · simp [UsersValidator.updateUser, h]
  · intro h
    simp [UsersValidator.createUser, h]
  · intro h
    simp [UsersValidator.createUser, h]
  · intro h
    simp [UsersValidator.patchUser, h]
  · intro h
    simp [UsersValidator.patchUser, h]
  · intro h
    simp [UsersValidator.patchUser, h]
  · intro h1 h2 h3 h4
    simp [UsersValidator.createUser, h1, h2, h3, h4]
  · intro h1 h2
    simp [UsersValidator.updateUser, h1, h2]
  · intro h1 h2 h3
    simp [UsersValidator.patchUser, h1, h2, h3]
  · intro p cp op np cnp
    rfl
  · intro n e p cp
    rfl
  · intro op np cnp
    rfl

/-- Witness for C7: a 101-character name is rejected by the create and
update schemas, a password of 5 or 33 characters is rejected, an email
without `@` is rejected, a missing password field fails the create schema,
and a fully valid create body is accepted. -/
theorem validator_schema_rules_witness :
    UsersValidator.joiName (some longName) = false ∧
    UsersValidator.createUser ⟨some longName, some "a@x.com", some "secret1",
      some "secret1", none, none, none⟩ = false ∧
    UsersValidator.updateUser ⟨some longName, some "a@x.com", some "secret1",
      some "secret1", none, none, none⟩ = false ∧
    UsersValidator.joiEmail (some "ax.com") = false ∧
    UsersValidator.joiPassword (some "abc") = false ∧
    UsersValidator.joiPassword
      (some "abcdefghijklmnopqrstuvwxyzabcdefg") = false ∧
    UsersValidator.createUser ⟨some "Alice", some "a@x.com", none,
      some "secret1", none, none, none⟩ = false ∧
    UsersValidator.patchUser ⟨none, none, none, none, some "abc",
      some "abcdef", some "abcdef"⟩ = false ∧
    UsersValidator.createUser ⟨some "Alice", some "a@x.com", some "secret1",
      some "secret1", none, none, none⟩ = true :=
  ⟨(validator_schema_rules ⟨none, none, none, none, none, none, none⟩).1
      longName (by decide),
   ((validator_schema_rules ⟨some longName, some "a@x.com", some "secret1",
      some "secret1", none, none, none⟩).2.2.2.2.2.2.2.2.2.1 (by decide)).1,
   ((validator_schema_rules ⟨some longName, some "a@x.com", some "secret1",
      some "secret1", none, none, none⟩).2.2.2.2.2.2.2.2.2.1 (by decide)).2,
   (validator_schema_rules ⟨none, none, none, none, none, none, none⟩).2.2.2.1
      "ax.com" (by decide),
   (validator_schema_rules ⟨none, none, none, none, none, none, none⟩
      ).2.2.2.2.2.1 "abc" (by decide),
   (validator_schema_rules ⟨none, none, none, none, none, none, none⟩
      ).2.2.2.2.2.2.1 "abcdefghijklmnopqrstuvwxyzabcdefg" (by decide),
   (validator_schema_rules ⟨some "Alice", some "a@x.com", none,
      some "secret1", none, none, none⟩).2.2.2.2.2.2.2.2.2.2.2.1 rfl,
   (validator_schema_rules ⟨none, none, none, none, some "abc",
      some "abcdef", some "abcdef"⟩).2.2.2.2.2.2.2.2.2.2.2.2.2.1 (by decide),
   (validator_schema_rules ⟨some "Alice", some "a@x.com", some "secret1",
      some "secret1", none, none, none⟩
      ).2.2.2.2.2.2.2.2.2.2.2.2.2.2.2.2.1 (by decide) (by decide) (by decide)
      (by decide)⟩

end BackendExercise
